import Mathlib

/-!
Verification development for the textbook-frontend booking application.

The definitions below are a shallow embedding of the TypeScript sources:
  - src/types/booking.ts        (enumeration types, form data shape)
  - src/services/api.ts         (ApiService: request, endpoint builders, getMagicLinkUrl)
  - src/hooks/useBooking.ts     (booking hook state transformers)
  - src/hooks/useMagicLink.ts   (magic-link hook state transformers)
  - src/components/BookingForm.tsx      (handleSubmit validation, type options)
  - src/components/BookingDetails.tsx   (action guards)
  - src/components/PaymentInterface.tsx (formatCardNumber)
Parts of the system that live in the backend repository (the booking state
machine and the magic-link resolver) are modelled from the specification,
and are marked as such in their doc comments.
-/

namespace TextbookFrontend

/-! ## Enumerations from src/types/booking.ts -/

/-- Embeds the TypeScript union type
`type BookingStatus = pending_confirmation | confirmed | completed | cancelled` (string literal union)
from src/types/booking.ts. -/
inductive BookingStatus where
  | pending_confirmation
  | confirmed
  | completed
  | cancelled
deriving DecidableEq, Repr

/-- Embeds the TypeScript union type
`type PaymentStatus = pending | processing | completed | failed | refunded` (string literal union)
from src/types/booking.ts, as a membership predicate on the string values. -/
def isPaymentStatus (s : String) : Bool :=
  s == "pending" || s == "processing" || s == "completed" || s == "failed" || s == "refunded"

/-- Embeds the `paymentStatus` field type of `PaymentUpdateRequest` in
src/services/api.ts: `paymentStatus: pending | completed | failed | refunded` (string literal union),
as a membership predicate on the string values. -/
def isPaymentUpdateStatus (s : String) : Bool :=
  s == "pending" || s == "completed" || s == "failed" || s == "refunded"

/-- Embeds the TypeScript union type
`type AppointmentType = CONSULTATION | TUTORIAL | ASSESSMENT | GROUP_SESSION | WORKSHOP` (string literal union)
from src/types/booking.ts, as a membership predicate on the string values. -/
def isAppointmentType (s : String) : Bool :=
  s == "CONSULTATION" || s == "TUTORIAL" || s == "ASSESSMENT" ||
  s == "GROUP_SESSION" || s == "WORKSHOP"

/-- The `value` attributes of the appointment-type `<option>` elements rendered by
`BookingForm` (src/components/BookingForm.tsx, the `<select>` for `appointmentType`). -/
def bookingFormTypeOptions : List String :=
  ["CONSULTATION", "TUTORIAL", "ASSESSMENT", "GROUP_SESSION", "WORKSHOP"]

/-! ## URL construction from src/services/api.ts -/

/-- Embeds the constant magicLinkBaseUrl of src/services/api.ts. -/
def magicLinkBaseUrl : String := "https://tbook-v1.vercel.app"

/-- Embeds `ApiService.getMagicLinkUrl`:
`return \x7b magicLinkBaseUrl \x7d/appt/\x7b magicLinkId \x7d` (template literal)
from src/services/api.ts. -/
def getMagicLinkUrl (magicLinkId : String) : String :=
  magicLinkBaseUrl ++ "/appt/" ++ magicLinkId

/-! ## Booking form data and submission validation (src/components/BookingForm.tsx) -/

/-- Embeds the `bookingDetails` object of `BookingFormData` in src/types/booking.ts
(subject, level, duration, notes, all optional). -/
structure BookingFormDetails where
  subject : Option String
  level : Option String
  duration : Option Nat
  notes : Option String
deriving DecidableEq, Repr

/-- Embeds `BookingFormData` from src/types/booking.ts. The `appointmentType`
field is carried as its string value. -/
structure BookingFormData where
  userName : String
  userPhone : String
  appointmentType : String
  appointmentDate : String
  bookingDetails : BookingFormDetails
deriving DecidableEq, Repr

/-- Whitespace characters stripped by JavaScript `String.prototype.trim`
(WhiteSpace and LineTerminator code points). -/
def isJsWhitespace (c : Char) : Bool :=
  c == ' ' || c == '\t' || c == '\n' || c == '\r' || c == '\x0b' || c == '\x0c' ||
  c == '\u00A0' || c == '\uFEFF' || c == '\u2028' || c == '\u2029'

/-- JavaScript `String.prototype.trim`: remove leading and trailing whitespace. -/
def jsTrim (s : String) : String :=
  String.mk (((s.toList.dropWhile isJsWhitespace).reverse.dropWhile isJsWhitespace).reverse)

/-- Embeds the validation prefix of `handleSubmit` in src/components/BookingForm.tsx:
the handler returns early (issuing no createBooking request) when
`formData.userName.trim()` is falsy, when `formData.userPhone.trim()` is falsy, or
when `formData.appointmentDate` is falsy; only otherwise does it call
`createBooking`. Returns whether a createBooking request is issued. -/
def handleSubmitIssuesRequest (formData : BookingFormData) : Bool :=
  if jsTrim formData.userName == "" then false
  else if jsTrim formData.userPhone == "" then false
  else if formData.appointmentDate == "" then false
  else true

/-! ## Card number formatting (src/components/PaymentInterface.tsx) -/

/-- Splits a character list into consecutive blocks of four, the trailing block
holding the final one-to-three characters; this is the loop in
`formatCardNumber` that pushes `match.substring(i, i + 4)` for i = 0, 4, 8, ... -/
def chunk4 : List Char → List (List Char)
  | [] => []
  | [a] => [[a]]
  | [a, b] => [[a, b]]
  | [a, b, c] => [[a, b, c]]
  | a :: b :: c :: d :: rest => [a, b, c, d] :: chunk4 rest

/-- JavaScript join of the parts array with a space separator: concatenate blocks with a single space between
consecutive blocks. -/
def joinSpace : List (List Char) → List Char
  | [] => []
  | [b] => b
  | b :: c :: bs => b ++ ' ' :: joinSpace (c :: bs)

/-- Embeds `formatCardNumber` from src/components/PaymentInterface.tsx.
The two `replace` calls reduce `value` to its decimal digits `v`; matching `v`
against the global pattern "4 to 16 digits" yields, on an all-digit string, a
first match equal to the first 16 characters of `v` as soon as `v` has at least
4 characters, and no match otherwise, so `matches && matches[0] || fallback` is
that prefix or the empty string; the for-loop builds the 4-character parts; a
nonempty parts array is joined with single spaces, otherwise `v` is returned. -/
def formatCardNumber (value : String) : String :=
  let v := value.toList.filter Char.isDigit
  let firstMatch := if 4 ≤ v.length then v.take 16 else []
  let parts := chunk4 firstMatch
  if parts.length ≠ 0 then String.mk (joinSpace parts) else String.mk v

/-! ## ApiResponse and the request wrapper (src/services/api.ts) -/

/-- Embeds the `ApiResponse` interface of src/services/api.ts, also used as the
shape of a parsed JSON body: `success`, optional `data` (payload kept opaque as
a string), optional `error`, optional `message`. A field absent in the JSON is
`none`. -/
structure ApiResponse where
  success : Bool
  data : Option String
  error : Option String
  message : Option String
deriving DecidableEq, Repr

/-- JavaScript `a || b` applied to an optional string field: the field when it
is present and nonempty (truthy), otherwise the fallback. -/
def jsOr (o : Option String) (fallback : String) : String :=
  match o with
  | some s => if s = "" then fallback else s
  | none => fallback

/-- One behaviour of the environment during a single `ApiService.request` call:
the fetch promise rejects (carrying a thrown value that is or is not an `Error`
instance, with its message), `response.json()` rejects, or a body is parsed
from a response with the given `ok` flag and numeric status. -/
inductive FetchOutcome where
  | netError (isErrorInstance : Bool) (message : String)
  | parseError (ok : Bool) (status : Nat) (isErrorInstance : Bool) (message : String)
  | parsed (ok : Bool) (status : Nat) (body : ApiResponse)
deriving DecidableEq, Repr

/-- The string computed by the catch block of `ApiService.request`
(src/services/api.ts): the message of the thrown value when it is an `Error`
instance, a fixed fallback otherwise. -/
def caughtMessage (isErrorInstance : Bool) (message : String) : String :=
  if isErrorInstance then message else "Unknown error occurred"

/-- Embeds `ApiService.request` from src/services/api.ts as a function of the
environment behaviour. A rejected fetch or a rejected `response.json()` is
caught and turned into a failure response; a parsed body with `ok` false makes
the method throw `Error(data.error || fallback-with-status)` which its own
catch block converts to a failure response; a parsed body with `ok` true is
returned as is. -/
def request (o : FetchOutcome) : ApiResponse :=
  match o with
  | .netError isErr msg =>
      { success := false, data := none, error := some (caughtMessage isErr msg), message := none }
  | .parseError _ _ isErr msg =>
      { success := false, data := none, error := some (caughtMessage isErr msg), message := none }
  | .parsed ok status body =>
      if ok then body
      else
        { success := false
          data := none
          error := some (jsOr body.error ("HTTP error! status: " ++ toString status))
          message := none }

/-! ## Endpoint descriptors (src/services/api.ts) -/

/-- An HTTP request issued by `ApiService`: method and endpoint path. -/
structure ApiRequest where
  method : String
  path : String
deriving DecidableEq, Repr

/-- Embeds `ApiService.previewMagicLink` (src/services/api.ts): the single
request it issues, a GET (the default method) to the preview path. -/
def previewMagicLinkRequest (magicLinkId : String) : ApiRequest :=
  { method := "GET", path := "/appt/" ++ magicLinkId ++ "/preview" }

/-- Embeds `ApiService.trackMagicLinkEvent` (src/services/api.ts): a POST to the
track path. -/
def trackMagicLinkEventRequest (magicLinkId : String) : ApiRequest :=
  { method := "POST", path := "/appt/" ++ magicLinkId ++ "/track" }

/-- The backend magic-link resolve route, `GET /appt/` followed by the magic
link id (spec section 4.4 and the backend API listing): the mutating redirect
path, which the frontend service layer never requests. -/
def resolvePath (magicLinkId : String) : String :=
  "/appt/" ++ magicLinkId

/-! ## Data records carried by responses (src/services/api.ts) -/

/-- Embeds the `BookingResponse` interface of src/services/api.ts. -/
structure BookingResponse where
  bookingId : String
  uuid : String
  magicLink : String
  status : String
  message : String
deriving DecidableEq, Repr

/-- Embeds the `BookingDetails` interface of src/services/api.ts (the
`bookingDetails` payload object kept opaque as a string). -/
structure BookingDetailsData where
  id : String
  bookingId : String
  magicLinkId : String
  userName : String
  userPhone : String
  appointmentType : String
  appointmentDate : String
  bookingDetails : String
  status : String
  paymentStatus : String
  paymentId : Option String
  paymentAmount : Option Nat
  paymentCurrency : Option String
  createdAt : String
  confirmedAt : Option String
  paymentUpdatedAt : Option String
  lastAccessedAt : Option String
  accessCount : Nat
deriving DecidableEq, Repr

/-- Embeds the `MagicLinkPreview` interface of src/services/api.ts. -/
structure MagicLinkPreview where
  bookingId : String
  redirectUrl : String
  status : String
  bookingDetails : BookingDetailsData
deriving DecidableEq, Repr

/-- Embeds the `AnalyticsEvent` interface of src/services/api.ts (metadata kept
opaque as a string). -/
structure AnalyticsEvent where
  event : String
  userAgent : Option String
  ipAddress : Option String
  metadata : Option String
deriving DecidableEq, Repr

/-! ## Hook state transformers (src/hooks/useBooking.ts, src/hooks/useMagicLink.ts) -/

/-- The observable outcome of one awaited ApiService call inside a hook action:
a returned `ApiResponse` whose optional `data` payload has type α, or a thrown
value (whether it is an `Error` instance, and its message). -/
inductive CallOutcome (α : Type) where
  | resp (success : Bool) (data : Option α) (error : Option String)
  | thrown (isErrorInstance : Bool) (message : String)

/-- The string computed by the catch blocks of the hooks
(src/hooks/useBooking.ts, src/hooks/useMagicLink.ts): the message of the thrown
message when it is an `Error` instance, a fixed fallback otherwise. -/
def hookCaughtMessage (isErrorInstance : Bool) (message : String) : String :=
  if isErrorInstance then message else "An unexpected error occurred"

/-- Embeds `UseBookingState` from src/hooks/useBooking.ts. -/
structure UseBookingState where
  loading : Bool
  error : Option String
  success : Bool
  bookingResponse : Option BookingResponse
  bookingDetails : Option BookingDetailsData
deriving DecidableEq, Repr

/-- Embeds `createBooking` of src/hooks/useBooking.ts as a state transformer:
the initial setState turns loading on and clears error and success; then,
depending on the outcome of `apiService.createBooking(data)`, the final
setState stores the response data on `response.success && response.data`,
and otherwise records `response.error || fallback` (or the caught message)
with success false. -/
def createBookingAction (data : BookingFormData) (s : UseBookingState)
    (o : CallOutcome BookingResponse) : UseBookingState :=
  let _ := data
  let s1 := { s with loading := true, error := none, success := false }
  match o with
  | .resp success respData respError =>
      match success, respData with
      | true, some d =>
          { s1 with loading := false, success := true, bookingResponse := some d, error := none }
      | _, _ =>
          { s1 with
            loading := false
            error := some (jsOr respError "Failed to create booking")
            success := false }
  | .thrown isErr msg =>
      { s1 with loading := false, error := some (hookCaughtMessage isErr msg), success := false }

/-- Embeds `confirmBooking` of src/hooks/useBooking.ts as a state transformer:
the initial setState turns loading on and clears error (success is not reset);
the final setState follows `response.success` alone. -/
def confirmBookingAction (uuid : String) (s : UseBookingState)
    (o : CallOutcome Unit) : UseBookingState :=
  let _ := uuid
  let s1 := { s with loading := true, error := none }
  match o with
  | .resp success _ respError =>
      if success then
        { s1 with loading := false, success := true, error := none }
      else
        { s1 with
          loading := false
          error := some (jsOr respError "Failed to confirm booking")
          success := false }
  | .thrown isErr msg =>
      { s1 with loading := false, error := some (hookCaughtMessage isErr msg), success := false }

/-- Embeds `updatePayment` of src/hooks/useBooking.ts as a state transformer
(same shape as `confirmBooking`, with its own fallback message). -/
def updatePaymentAction (uuid : String) (paymentStatus : String) (s : UseBookingState)
    (o : CallOutcome Unit) : UseBookingState :=
  let _ := uuid
  let _ := paymentStatus
  let s1 := { s with loading := true, error := none }
  match o with
  | .resp success _ respError =>
      if success then
        { s1 with loading := false, success := true, error := none }
      else
        { s1 with
          loading := false
          error := some (jsOr respError "Failed to update payment")
          success := false }
  | .thrown isErr msg =>
      { s1 with loading := false, error := some (hookCaughtMessage isErr msg), success := false }

/-- Embeds `getBookingDetails` of src/hooks/useBooking.ts as a state
transformer: stores the details on `response.success && response.data`,
otherwise records the error. -/
def getBookingDetailsAction (uuid : String) (s : UseBookingState)
    (o : CallOutcome BookingDetailsData) : UseBookingState :=
  let _ := uuid
  let s1 := { s with loading := true, error := none }
  match o with
  | .resp success respData respError =>
      match success, respData with
      | true, some d =>
          { s1 with loading := false, success := true, bookingDetails := some d, error := none }
      | _, _ =>
          { s1 with
            loading := false
            error := some (jsOr respError "Failed to fetch booking details")
            success := false }
  | .thrown isErr msg =>
      { s1 with loading := false, error := some (hookCaughtMessage isErr msg), success := false }

/-- Embeds `UseMagicLinkState` from src/hooks/useMagicLink.ts (the untyped
analytics payload kept opaque as a string). -/
structure UseMagicLinkState where
  loading : Bool
  error : Option String
  preview : Option MagicLinkPreview
  analytics : Option String
deriving DecidableEq, Repr

/-- Embeds `previewMagicLink` of src/hooks/useMagicLink.ts as a state
transformer: loading on and error cleared, then on
`response.success && response.data` the preview is stored, otherwise the error
is recorded; the analytics field is never written. -/
def previewMagicLinkAction (magicLinkId : String) (s : UseMagicLinkState)
    (o : CallOutcome MagicLinkPreview) : UseMagicLinkState :=
  let _ := magicLinkId
  let s1 := { s with loading := true, error := none }
  match o with
  | .resp success respData respError =>
      match success, respData with
      | true, some d =>
          { s1 with loading := false, preview := some d, error := none }
      | _, _ =>
          { s1 with
            loading := false
            error := some (jsOr respError "Failed to preview magic link") }
  | .thrown isErr msg =>
      { s1 with loading := false, error := some (hookCaughtMessage isErr msg) }

/-- Embeds `trackEvent` of src/hooks/useMagicLink.ts as a state transformer.
The source awaits `apiService.trackMagicLinkEvent(magicLinkId, eventData)`
inside a try block whose catch only logs to the console; the body contains no
setState call at all, so whatever the outcome of the track request, the hook
state is returned unchanged and nothing is thrown to the caller. -/
def trackEventAction (magicLinkId : String) (eventData : AnalyticsEvent)
    (s : UseMagicLinkState) (o : CallOutcome Unit) : UseMagicLinkState :=
  let _ := magicLinkId
  let _ := eventData
  let _ := o
  s

/-! ## Client-side action guards (src/components/BookingDetails.tsx) -/

/-- JavaScript truthiness of an optional string: present and nonempty. -/
def jsTruthy (o : Option String) : Bool :=
  match o with
  | some s => s != ""
  | none => false

/-- Embeds the guard of `handleConfirmBooking` in
src/components/BookingDetails.tsx: the body runs (issuing
`confirmBooking(uuid)`) only under
a uuid that is truthy and a displayed status strictly equal to pending_confirmation. -/
def confirmRequestIssued (uuid : Option String)
    (bookingDetails : Option BookingDetailsData) : Bool :=
  jsTruthy uuid &&
    (match bookingDetails with
     | some d => d.status == "pending_confirmation"
     | none => false)

/-- Embeds the rendering condition of the Mark Paid / Mark Failed buttons in
src/components/BookingDetails.tsx: the payment-update buttons exist in the
rendered output only when
the displayed status is strictly equal to confirmed and the displayed paymentStatus strictly equal to pending. -/
def paymentButtonsRendered (d : BookingDetailsData) : Bool :=
  d.status == "confirmed" && d.paymentStatus == "pending"

/-- A payment update is issued by the client only by clicking one of the
rendered payment buttons, whose handler `handlePaymentUpdate` additionally
returns early when `uuid` is falsy (src/components/BookingDetails.tsx). -/
def paymentUpdateIssued (uuid : Option String)
    (bookingDetails : Option BookingDetailsData) : Bool :=
  (match bookingDetails with
   | some d => paymentButtonsRendered d
   | none => false) && jsTruthy uuid

/-! ## Spec-modelled backend: booking state machine and magic-link resolver -/

/-- Modelled from the spec: the payment-status enumeration of the stored
booking record (section 3); mirrors the `PaymentStatus` union of
src/types/booking.ts. -/
inductive PaymentStatus where
  | pending
  | processing
  | completed
  | failed
  | refunded
deriving DecidableEq, Repr

/-- Modelled from the spec: the stored booking record governed by the backend
Booking State Machine and Magic Link Resolver (sections 4.2 to 4.4), which are
not part of this frontend repository; only the fields those contracts touch
are carried. -/
structure StoredBooking where
  status : BookingStatus
  paymentStatus : PaymentStatus
  accessCount : Nat
deriving DecidableEq, Repr

/-- Modelled from the spec: the `InvalidStateTransition` error kind (section 7). -/
inductive StateError where
  | invalidStateTransition
deriving DecidableEq, Repr

/-- Modelled from the spec: the legal booking-status edges of section 4.2 —
pending_confirmation to confirmed, confirmed to completed, and cancelled
reachable from pending_confirmation or confirmed; nothing leaves completed or
cancelled. -/
def statusEdge : BookingStatus → BookingStatus → Bool
  | .pending_confirmation, .confirmed => true
  | .confirmed, .completed => true
  | .pending_confirmation, .cancelled => true
  | .confirmed, .cancelled => true
  | _, _ => false

/-- Modelled from the spec: attempting a booking-status transition (section
4.2). A legal edge moves the status; re-confirming an already confirmed
booking is an idempotent no-op returning success; every other attempt fails
with `InvalidStateTransition`. -/
def applyStatusTransition (b : StoredBooking) (target : BookingStatus) :
    Except StateError StoredBooking :=
  if statusEdge b.status target then .ok { b with status := target }
  else if b.status == .confirmed && target == .confirmed then .ok b
  else .error .invalidStateTransition

/-- Modelled from the spec: a status update applied against the store — on an
illegal transition the error is surfaced and the stored record is left
unchanged, no partial writes (sections 4.2 and 7). -/
def applyStatusUpdate (b : StoredBooking) (target : BookingStatus) :
    Except StateError Unit × StoredBooking :=
  match applyStatusTransition b target with
  | .ok b2 => (.ok (), b2)
  | .error e => (.error e, b)

/-- Modelled from the spec: `resolve` of the Magic Link Resolver (section 4.4)
increments the access count of the stored booking. -/
def resolveOp (b : StoredBooking) : StoredBooking :=
  { b with accessCount := b.accessCount + 1 }

/-- Modelled from the spec: `preview` of the Magic Link Resolver (section 4.4)
performs the lookup without incrementing the access count — a side-effect-free
read; the first component is the returned booking snapshot, the second the
stored record after the call. -/
def previewOp (b : StoredBooking) : StoredBooking × StoredBooking :=
  (b, b)

/-- Repeats `previewOp` n times against the store, threading the stored
record. -/
def iteratePreview : Nat → StoredBooking → StoredBooking
  | 0, b => b
  | n + 1, b => iteratePreview n (previewOp b).2

/-- The state in which every action of the useBooking hook leaves the hook once
it completes: loading off, and the success flag and error message mutually
exclusive. -/
def terminalInvariant (t : UseBookingState) : Prop :=
  t.loading = false ∧ (t.success = true → t.error = none) ∧
  (∀ e, t.error = some e → t.success = false)

/-! ## Helper lemmas -/

theorem chunk4_mem : ∀ l : List Char, ∀ b ∈ chunk4 l,
    b ≠ [] ∧ b.length ≤ 4 ∧ ∀ c ∈ b, c ∈ l := by
  intro l
  induction l using chunk4.induct with
  | case1 => simp [chunk4]
  | case2 a => simp [chunk4]
  | case3 a b =>
      intro x hx
      simp [chunk4] at hx
      subst hx
      simp
  | case4 a b c =>
      intro x hx
      simp [chunk4] at hx
      subst hx
      simp
  | case5 a b c d rest ih =>
      intro x hx
      simp only [chunk4, List.mem_cons] at hx
      rcases hx with h | h
      · subst h
        refine ⟨by simp, by simp, ?_⟩
        intro ch hch
        simp at hch
        rcases hch with h | h | h | h <;> simp [h]
      · obtain ⟨h1, h2, h3⟩ := ih x h
        exact ⟨h1, h2, fun ch hch =>
          by simpa using Or.inr (Or.inr (Or.inr (Or.inr (h3 ch hch))))⟩

theorem chunk4_flatten : ∀ l : List Char, (chunk4 l).flatten = l := by
  intro l
  induction l using chunk4.induct with
  | case1 => simp [chunk4]
  | case2 a => simp [chunk4]
  | case3 a b => simp [chunk4]
  | case4 a b c => simp [chunk4]
  | case5 a b c d rest ih => simp [chunk4, ih]

theorem chunk4_ne_nil : ∀ l : List Char, l ≠ [] → chunk4 l ≠ [] := by
  intro l h
  induction l using chunk4.induct with
  | case1 => simp at h
  | case2 a => simp [chunk4]
  | case3 a b => simp [chunk4]
  | case4 a b c => simp [chunk4]
  | case5 a b c d rest ih => simp [chunk4]

theorem joinSpace_filter : ∀ bs : List (List Char),
    (∀ b ∈ bs, ∀ c ∈ b, c.isDigit = true) →
    (joinSpace bs).filter Char.isDigit = bs.flatten := by
  intro bs
  induction bs with
  | nil =>
      intro _
      simp [joinSpace]
  | cons b rest ih =>
      intro h
      cases rest with
      | nil =>
          simp only [joinSpace, List.flatten, List.append_nil]
          exact List.filter_eq_self.mpr (h b (by simp))
      | cons c bs2 =>
          have hb : ∀ ch ∈ b, ch.isDigit = true := h b (by simp)
          have hrest : ∀ x ∈ c :: bs2, ∀ ch ∈ x, ch.isDigit = true := by
            intro x hx
            exact h x (by simp [hx])
          simp only [joinSpace, List.flatten]
          rw [List.filter_append, List.filter_eq_self.mpr hb]
          have hsp : List.filter Char.isDigit (' ' :: joinSpace (c :: bs2)) =
              List.filter Char.isDigit (joinSpace (c :: bs2)) := by
            simp [List.filter_cons]
          rw [hsp, ih hrest]
          simp [List.flatten]

theorem all_ws_of_dropWhile (l : List Char)
    (h : ∀ c ∈ l.dropWhile isJsWhitespace, isJsWhitespace c = true) :
    ∀ c ∈ l, isJsWhitespace c = true := by
  intro c hc
  rw [← List.takeWhile_append_dropWhile (p := isJsWhitespace) (l := l)] at hc
  rcases List.mem_append.mp hc with h1 | h2
  · exact List.mem_takeWhile_imp h1
  · exact h c h2

theorem jsTrim_eq_empty_iff (s : String) :
    jsTrim s = "" ↔ ∀ c ∈ s.toList, isJsWhitespace c = true := by
  have hmk : jsTrim s = "" ↔
      ((s.toList.dropWhile isJsWhitespace).reverse.dropWhile isJsWhitespace).reverse = [] := by
    rw [jsTrim]
    simp [String.ext_iff]
  rw [hmk, List.reverse_eq_nil_iff, List.dropWhile_eq_nil_iff]
  constructor
  · intro h
    exact all_ws_of_dropWhile _ (fun c hc => h c (List.mem_reverse.mpr hc))
  · intro h c hc
    exact h c ((List.dropWhile_sublist _).mem (List.mem_reverse.mp hc))

theorem jsOr_ne_empty (o : Option String) (fb : String) (h : fb ≠ "") :
    jsOr o fb ≠ "" := by
  unfold jsOr
  cases o with
  | none => exact h
  | some s =>
      by_cases hs : s = ""
      · simp [hs]
        exact h
      · simp only [if_neg hs]
        exact hs

theorem http_fallback_ne_empty (st : Nat) : "HTTP error! status: " ++ toString st ≠ "" := by
  intro h
  have h2 := congrArg String.length h
  rw [String.length_append] at h2
  have h20 : ("HTTP error! status: " : String).length = 20 := rfl
  have h0 : ("" : String).length = 0 := rfl
  rw [h20, h0] at h2
  omega

theorem iteratePreview_id : ∀ (n : Nat) (b : StoredBooking), iteratePreview n b = b := by
  intro n
  induction n with
  | zero => intro b; rfl
  | succ k ih =>
      intro b
      rw [iteratePreview, previewOp, ih]

theorem preview_path_ne_resolve (magicLinkId : String) :
    (previewMagicLinkRequest magicLinkId).path ≠ resolvePath magicLinkId := by
  intro h
  have h2 := congrArg String.length h
  rw [previewMagicLinkRequest, resolvePath] at h2
  simp only [String.length_append] at h2
  have hp : ("/preview" : String).length = 8 := rfl
  rw [hp] at h2
  omega

/-! ## Claim theorems -/

/-- C1: For every stored booking and attempted status transition, the status
moves only along pending_confirmation to confirmed to completed, with cancelled
reachable from pending_confirmation or confirmed (a re-confirmation being an
idempotent success that moves nothing); no transition leaves completed or
cancelled; an illegal transition fails with an InvalidStateTransition error and
leaves the stored record unchanged. In the client, a confirm request is issued
only when the displayed status is pending_confirmation, and a payment update
only when the displayed status is confirmed and paymentStatus is pending. -/
theorem booking_status_transition_contract (b : StoredBooking) (target : BookingStatus) :
    (∀ b2, applyStatusTransition b target = .ok b2 →
      (statusEdge b.status target = true ∧ b2 = { b with status := target }) ∨
      (b.status = .confirmed ∧ target = .confirmed ∧ b2 = b)) ∧
    ((b.status = .completed ∨ b.status = .cancelled) →
      applyStatusUpdate b target = (.error .invalidStateTransition, b)) ∧
    (∀ e, applyStatusTransition b target = .error e →
      e = .invalidStateTransition ∧ (applyStatusUpdate b target).2 = b) ∧
    (∀ uuid details, confirmRequestIssued uuid details = true →
      ∃ d, details = some d ∧ d.status = "pending_confirmation") ∧
    (∀ uuid details, paymentUpdateIssued uuid details = true →
      ∃ d, details = some d ∧ d.status = "confirmed" ∧ d.paymentStatus = "pending") := by
  obtain ⟨st, ps, ac⟩ := b
  refine ⟨?_, ?_, ?_, ?_, ?_⟩
  · intro b2 h
    cases st <;> cases target <;>
      simp_all [applyStatusTransition, statusEdge]
  · intro h
    rcases h with h | h <;> subst h <;>
      cases target <;>
        simp [applyStatusUpdate, applyStatusTransition, statusEdge]
  · intro e h
    cases st <;> cases target <;>
      simp_all [applyStatusUpdate, applyStatusTransition, statusEdge]
  · intro uuid details h
    rcases details with _ | d
    · simp [confirmRequestIssued] at h
    · simp only [confirmRequestIssued, Bool.and_eq_true, beq_iff_eq] at h
      exact ⟨d, rfl, h.2⟩
  · intro uuid details h
    rcases details with _ | d
    · simp [paymentUpdateIssued] at h
    · simp only [paymentUpdateIssued, paymentButtonsRendered, Bool.and_eq_true,
        beq_iff_eq] at h
      exact ⟨d, rfl, h.1.1, h.1.2⟩

/-- C1 witness: confirming an already completed booking fails with
InvalidStateTransition and the stored record is unchanged. -/
theorem booking_status_transition_contract_witness :
    applyStatusUpdate ⟨.completed, .pending, 0⟩ .confirmed =
      (.error .invalidStateTransition, ⟨.completed, .pending, 0⟩) :=
  (booking_status_transition_contract ⟨.completed, .pending, 0⟩ .confirmed).2.1 (Or.inl rfl)

/-- C2 counterexample: the PaymentStatus enumeration of the data model contains
processing, but processing is not a representable paymentStatus of a
PaymentUpdateRequest (src/services/api.ts omits it from the union). -/
theorem paymentUpdate_missing_processing :
    isPaymentStatus "processing" = true ∧ isPaymentUpdateStatus "processing" = false := by
  decide

/-- C2 (amended): every payment-status update accepted at the interface carries
a paymentStatus drawn from the four-value enumeration pending, completed,
failed, refunded — exactly these are representable (processing is not) — and
each representable value lies inside the five-value PaymentStatus enumeration
of the data model. -/
theorem paymentUpdate_enumeration (s : String) :
    (isPaymentUpdateStatus s = true ↔
      s = "pending" ∨ s = "completed" ∨ s = "failed" ∨ s = "refunded") ∧
    (isPaymentUpdateStatus s = true → isPaymentStatus s = true) := by
  constructor
  · simp [isPaymentUpdateStatus, or_assoc]
  · intro h
    have h2 : s = "pending" ∨ s = "completed" ∨ s = "failed" ∨ s = "refunded" := by
      simpa [isPaymentUpdateStatus, or_assoc] using h
    rw [isPaymentStatus]
    rcases h2 with h | h | h | h <;> simp [h]

/-- C2 witness: completed is a representable payment-update status, and it lies
in the PaymentStatus enumeration. -/
theorem paymentUpdate_enumeration_witness : isPaymentStatus "completed" = true :=
  (paymentUpdate_enumeration "completed").2 (by decide)

/-- C3 counterexample: the lowercase spelling consultation named by the claim is
not a representable AppointmentType and is not offered by the booking form,
while the uppercase CONSULTATION is both. -/
theorem appointmentType_lowercase_counterexample :
    isAppointmentType "consultation" = false ∧
    bookingFormTypeOptions.contains "consultation" = false ∧
    isAppointmentType "CONSULTATION" = true ∧
    bookingFormTypeOptions.contains "CONSULTATION" = true := by
  decide

/-- C3 (amended): every appointmentType value carried by a booking or
submitted in a creation request is one of the uppercase enumeration values
CONSULTATION, TUTORIAL, ASSESSMENT, GROUP_SESSION, WORKSHOP — exactly these
strings and no others — and the booking form offers exactly these options. -/
theorem appointmentType_enumeration (s : String) :
    (isAppointmentType s = true ↔
      s = "CONSULTATION" ∨ s = "TUTORIAL" ∨ s = "ASSESSMENT" ∨
      s = "GROUP_SESSION" ∨ s = "WORKSHOP") ∧
    bookingFormTypeOptions.all isAppointmentType = true ∧
    (∀ t ∈ bookingFormTypeOptions, isAppointmentType t = true) := by
  refine ⟨by simp [isAppointmentType, or_assoc], by decide, ?_⟩
  intro t ht
  fin_cases ht <;> decide

/-- C3 witness: WORKSHOP is a representable appointment type. -/
theorem appointmentType_enumeration_witness : isAppointmentType "WORKSHOP" = true :=
  (appointmentType_enumeration "WORKSHOP").1.mpr (by simp)

/-- C4 counterexample: when the underlying fetch rejects with an Error instance
whose message is the empty string, request returns success false but an empty
error message, so the error message is not always non-empty. -/
theorem request_empty_error_counterexample :
    (request (.netError true "")).success = false ∧
    (request (.netError true "")).error = some "" := by
  decide

/-- C4 (amended): request never propagates an exception: on every failure path
it returns an ApiResponse with success false and an error message present — the
caught message when fetch or body parsing rejects (non-empty whenever the
thrown value is not an Error instance or carries a non-empty message), and on a
non-ok HTTP status the error field of the body or an HTTP-status fallback, which is
always non-empty. -/
theorem request_failure_contract (isErr : Bool) (msg : String) (ok : Bool) (st : Nat)
    (body : ApiResponse) :
    ((request (.netError isErr msg)).success = false ∧
      (request (.netError isErr msg)).error = some (caughtMessage isErr msg)) ∧
    ((request (.parseError ok st isErr msg)).success = false ∧
      (request (.parseError ok st isErr msg)).error = some (caughtMessage isErr msg)) ∧
    ((isErr = false ∨ msg ≠ "") → caughtMessage isErr msg ≠ "") ∧
    ((request (.parsed false st body)).success = false ∧
      ∃ m, (request (.parsed false st body)).error = some m ∧ m ≠ "") := by
  refine ⟨⟨rfl, rfl⟩, ⟨rfl, rfl⟩, ?_, ⟨rfl, ?_⟩⟩
  · intro h
    cases isErr
    · rw [caughtMessage, if_neg (by decide)]
      decide
    · rw [caughtMessage, if_pos rfl]
      rcases h with h | h
      · exact absurd h (by decide)
      · exact h
  · refine ⟨jsOr body.error ("HTTP error! status: " ++ toString st), ?_, ?_⟩
    · rw [request]
      simp
    · exact jsOr_ne_empty _ _ (http_fallback_ne_empty st)

/-- C4 witness: a non-ok 404 response with an empty body yields success false
and a non-empty error message. -/
theorem request_failure_contract_witness :
    (request (.parsed false 404 ⟨true, none, none, none⟩)).success = false ∧
    caughtMessage false "" ≠ "" :=
  ⟨(request_failure_contract true "x" true 404 ⟨true, none, none, none⟩).2.2.2.1,
   (request_failure_contract false "" true 404 ⟨true, none, none, none⟩).2.2.1 (Or.inl rfl)⟩

/-- C5: for every magicLinkId and analytics event, trackEvent never surfaces a
failure: whatever the outcome of the underlying track request (success,
failure, or thrown value), the hook state fields loading, error, preview and
analytics are all unchanged, and nothing is thrown to the caller. -/
theorem trackEvent_preserves_state (magicLinkId : String) (eventData : AnalyticsEvent)
    (s : UseMagicLinkState) (o : CallOutcome Unit) :
    (trackEventAction magicLinkId eventData s o).loading = s.loading ∧
    (trackEventAction magicLinkId eventData s o).error = s.error ∧
    (trackEventAction magicLinkId eventData s o).preview = s.preview ∧
    (trackEventAction magicLinkId eventData s o).analytics = s.analytics :=
  ⟨rfl, rfl, rfl, rfl⟩

/-- C6: previewing a magic link is a read that mutates no booking state: the
service issues only the GET preview request, whose path differs from the
resolve path; any number of preview operations leaves the stored booking (and
in particular its accessCount) unchanged; and the hook action leaves the
analytics field untouched, writing only preview, loading and error. -/
theorem previewMagicLink_readonly (magicLinkId : String) (s : UseMagicLinkState)
    (o : CallOutcome MagicLinkPreview) (b : StoredBooking) (n : Nat) :
    previewMagicLinkRequest magicLinkId =
      { method := "GET", path := "/appt/" ++ magicLinkId ++ "/preview" } ∧
    (previewMagicLinkRequest magicLinkId).path ≠ resolvePath magicLinkId ∧
    iteratePreview n b = b ∧
    (iteratePreview n b).accessCount = b.accessCount ∧
    (previewMagicLinkAction magicLinkId s o).analytics = s.analytics := by
  refine ⟨rfl, preview_path_ne_resolve magicLinkId, iteratePreview_id n b,
    by rw [iteratePreview_id], ?_⟩
  unfold previewMagicLinkAction
  rcases o with ⟨success, data, error⟩ | ⟨isErr, m⟩
  · rcases success <;> rcases data <;> rfl
  · rfl

/-- C6 witness: five preview operations leave a concrete stored booking
unchanged. -/
theorem previewMagicLink_readonly_witness :
    iteratePreview 5 ⟨.pending_confirmation, .pending, 3⟩ =
      ⟨.pending_confirmation, .pending, 3⟩ :=
  (previewMagicLink_readonly "tok" ⟨false, none, none, none⟩
    (.thrown true "x") ⟨.pending_confirmation, .pending, 3⟩ 5).2.2.1

/-- C7: the booking form issues a createBooking request exactly when userName
and userPhone are non-empty after trimming and appointmentDate is non-empty;
and trimming to empty characterises the strings that are empty or consist only
of whitespace. -/
theorem bookingForm_submission_guard (fd : BookingFormData) :
    (handleSubmitIssuesRequest fd = true ↔
      jsTrim fd.userName ≠ "" ∧ jsTrim fd.userPhone ≠ "" ∧ fd.appointmentDate ≠ "") ∧
    (∀ t : String, jsTrim t = "" ↔ ∀ c ∈ t.toList, isJsWhitespace c = true) := by
  refine ⟨?_, jsTrim_eq_empty_iff⟩
  simp only [handleSubmitIssuesRequest, beq_iff_eq]
  split_ifs with h1 h2 h3
  · simp [h1]
  · simp [h2]
  · simp [h3]
  · simp [h1, h2, h3]

/-- C7 witness: a fully filled form issues the request; a form whose name is
only whitespace does not. -/
theorem bookingForm_submission_guard_witness :
    handleSubmitIssuesRequest
      ⟨"Jane Doe", "+15551234567", "CONSULTATION", "2025-03-01T10:00", ⟨none, none, none, none⟩⟩
      = true :=
  (bookingForm_submission_guard _).1.mpr (by decide)

/-- C8: getMagicLinkUrl deterministically returns the magic-link base URL
concatenated with the appt path segment and the magicLinkId. -/
theorem getMagicLinkUrl_shape (magicLinkId : String) :
    getMagicLinkUrl magicLinkId = magicLinkBaseUrl ++ "/appt/" ++ magicLinkId ∧
    getMagicLinkUrl magicLinkId = "https://tbook-v1.vercel.app/appt/" ++ magicLinkId :=
  ⟨rfl, rfl⟩

/-- C9: after any of the four useBooking actions completes — on a successful
response, an API failure, or a thrown exception — loading is false and success
and error are mutually exclusive in the resulting hook state. -/
theorem useBooking_terminal_invariant (data : BookingFormData) (uuid : String)
    (pstat : String) (s : UseBookingState) (o1 : CallOutcome BookingResponse)
    (o2 : CallOutcome Unit) (o3 : CallOutcome Unit) (o4 : CallOutcome BookingDetailsData) :
    terminalInvariant (createBookingAction data s o1) ∧
    terminalInvariant (confirmBookingAction uuid s o2) ∧
    terminalInvariant (updatePaymentAction uuid pstat s o3) ∧
    terminalInvariant (getBookingDetailsAction uuid s o4) := by
  refine ⟨?_, ?_, ?_, ?_⟩
  · unfold createBookingAction terminalInvariant
    rcases o1 with ⟨success, d, e⟩ | ⟨isErr, m⟩
    · rcases success <;> rcases d <;> simp
    · simp
  · unfold confirmBookingAction terminalInvariant
    rcases o2 with ⟨success, d, e⟩ | ⟨isErr, m⟩
    · rcases success <;> simp
    · simp
  · unfold updatePaymentAction terminalInvariant
    rcases o3 with ⟨success, d, e⟩ | ⟨isErr, m⟩
    · rcases success <;> simp
    · simp
  · unfold getBookingDetailsAction terminalInvariant
    rcases o4 with ⟨success, d, e⟩ | ⟨isErr, m⟩
    · rcases success <;> rcases d <;> simp
    · simp

/-- C9 witness: after a successful confirm call the hook shows no error. -/
theorem useBooking_terminal_invariant_witness :
    (confirmBookingAction "u" ⟨false, none, false, none, none⟩ (.resp true none none)).error
      = none :=
  (useBooking_terminal_invariant ⟨"a", "b", "CONSULTATION", "d", ⟨none, none, none, none⟩⟩
    "u" "completed" ⟨false, none, false, none, none⟩ (.thrown true "x")
    (.resp true none none) (.thrown true "x") (.thrown true "x")).2.1.2.1 (by decide)

/-- C10: formatCardNumber returns only digits grouped in nonempty blocks of at
most four separated by single spaces; the digits of the result are exactly the
first sixteen (or fewer) digits of the input; and an input with fewer than four
digits is returned as its digits with no separators. -/
theorem formatCardNumber_spec (s : String) :
    (∃ bs : List (List Char),
        (formatCardNumber s).toList = joinSpace bs ∧
        ∀ b ∈ bs, b ≠ [] ∧ b.length ≤ 4 ∧ ∀ c ∈ b, c.isDigit = true) ∧
    (formatCardNumber s).toList.filter Char.isDigit = (s.toList.filter Char.isDigit).take 16 ∧
    ((s.toList.filter Char.isDigit).length < 4 →
        formatCardNumber s = String.mk (s.toList.filter Char.isDigit)) := by
  set d := s.toList.filter Char.isDigit with hd
  have hdig : ∀ c ∈ d, c.isDigit = true := fun c hc => (List.mem_filter.mp hc).2
  have hdig16 : ∀ c ∈ d.take 16, c.isDigit = true := fun c hc => hdig c (List.take_subset _ _ hc)
  by_cases h4 : 4 ≤ d.length
  · have htake_ne : d.take 16 ≠ [] := by
      intro h
      have h0 : (d.take 16).length = 0 := by rw [h]; rfl
      rw [List.length_take] at h0
      omega
    have hparts_ne : (chunk4 (d.take 16)).length ≠ 0 := by
      simpa [List.length_eq_zero] using chunk4_ne_nil _ htake_ne
    have hres : formatCardNumber s = String.mk (joinSpace (chunk4 (d.take 16))) := by
      simp only [formatCardNumber, ← hd]
      rw [if_pos h4, if_pos hparts_ne]
    have htl : (formatCardNumber s).toList = joinSpace (chunk4 (d.take 16)) := by
      rw [hres]
      rfl
    refine ⟨⟨chunk4 (d.take 16), htl, ?_⟩, ?_, ?_⟩
    · intro b hb
      obtain ⟨h1, h2, h3⟩ := chunk4_mem _ b hb
      exact ⟨h1, h2, fun c hc => hdig16 c (h3 c hc)⟩
    · rw [htl, joinSpace_filter _ (fun b hb c hc => hdig16 c ((chunk4_mem _ b hb).2.2 c hc)),
        chunk4_flatten]
    · intro h
      exfalso
      omega
  · have hres : formatCardNumber s = String.mk d := by
      simp only [formatCardNumber, ← hd]
      rw [if_neg h4]
      simp [chunk4]
    have htl : (formatCardNumber s).toList = d := by
      rw [hres]
      rfl
    refine ⟨?_, ?_, fun _ => hres⟩
    · by_cases hnil : d = []
      · exact ⟨[], by rw [htl, hnil]; rfl, by simp⟩
      · refine ⟨[d], by rw [htl]; rfl, ?_⟩
        intro b hb
        simp at hb
        subst hb
        exact ⟨hnil, by omega, hdig⟩
    · rw [htl, List.filter_eq_self.mpr hdig, List.take_of_length_le (by omega)]

/-- C10 witness: an input with two digits is returned as those digits. -/
theorem formatCardNumber_spec_witness : formatCardNumber "12a" = "12" :=
  (formatCardNumber_spec "12a").2.2 (by decide)

end TextbookFrontend
